import Mathlib

/-!
Verification of the power-scheme save/switch/restore subroutine of
GPTboost (`src/gptboost.py`), shallowly embedded in Lean 4.

The embedding models the Windows facilities the subroutine talks to
(`powercfg /getactivescheme`, `powercfg /list`, `powercfg /setactive`,
and the persisted one-record JSON backup file) as an explicit system
state, and the extrinsic outcomes of those external calls (whether the
GUID regex matched, whether the file write succeeded, whether the
`setactive` command exited zero) as an explicit environment record.
Python exceptions are modelled with `Except`; an error value carries the
system state at the moment the exception was raised, so that effects
already performed (e.g. the backup file already written) are visible.
-/

/-- Severity level of a log line (`logging.info` / `warning` / `error`). -/
inductive LogLevel where
  | info
  | warning
  | error
deriving DecidableEq, Repr, BEq

/-- One power scheme as reported by `powercfg /list`: its GUID and the
display text that follows the GUID on the same output line. -/
structure Scheme where
  guid : String
  name : String
deriving DecidableEq, Repr

/-- Content of the persisted backup file `gptboost_backup.json`.
`obj fields` is a JSON object with string keys and string values
(`json.loads` succeeded and produced a dict); `malformed` is any content
on which `json.loads(...)` or the subsequent `.get` raises (invalid
JSON, or a non-object document); `absent` means the file does not exist. -/
inductive FileContent where
  | absent
  | malformed
  | obj (fields : List (String × String))
deriving DecidableEq, Repr

/-- The system state a run manipulates: the active power scheme GUID,
the OS scheme list, the backup file, the log written so far, and the
list of `powercfg /setactive` invocations issued so far (each entry is
the GUID the command was issued with, whether or not it succeeded). -/
structure SysState where
  active : String
  schemes : List Scheme
  backup : FileContent
  log : List (LogLevel × String)
  activations : List String
deriving DecidableEq, Repr

/-- Point at which a failing `Path.write_text` gave up. `write_text`
opens the file with mode `w`, which truncates it before writing, so the
content a failed write leaves behind depends on where it failed:
`openFail` (the open itself failed, prior content intact),
`partialWrite` (the file was truncated and at most a strict prefix of
the JSON record was flushed — never valid JSON), or `closeFail` (the
full record was flushed but closing still raised). -/
inductive WriteFailMode where
  | openFail
  | partialWrite
  | closeFail
deriving DecidableEq, Repr

/-- Extrinsic outcomes of the external calls a run makes.
`activeQueryOk`: the `GUID:` regex found a match in the output of
`powercfg /getactivescheme` (when it does, the match is the GUID of the
scheme the OS reports active). `listOk`: `powercfg /list` produced its
output (on failure `capture_output` yields empty stdout and, with no
`check=True`, no exception). `writeOk`: `Path.write_text` on the backup
file succeeds. `setActiveOk`: the `powercfg /setactive` command itself
works (a run additionally fails when the GUID names no known scheme).
`writeFailMode`: where a failing write gave up (only consulted when
`writeOk` is false). -/
structure Env where
  activeQueryOk : Bool
  listOk : Bool
  writeOk : Bool
  setActiveOk : Bool
  writeFailMode : WriteFailMode
deriving DecidableEq, Repr

/-- Append one line to the log. -/
def logMsg (st : SysState) (lvl : LogLevel) (msg : String) : SysState :=
  { st with log := st.log ++ [(lvl, msg)] }

/-- Decide whether `needle` occurs at the start of `hay`. -/
def charsArePrefix : List Char → List Char → Bool
  | [], _ => true
  | _ :: _, [] => false
  | a :: as, b :: bs => a == b && charsArePrefix as bs

/-- Decide whether `needle` occurs anywhere inside `hay`. -/
def charsContain (needle : List Char) : List Char → Bool
  | [] => needle.isEmpty
  | b :: bs => charsArePrefix needle (b :: bs) || charsContain needle bs

/-- Test mirroring the regex `([0-9a-fA-F\-]{36}).*High performance`
with `re.IGNORECASE` applied to one `powercfg /list` output line: the
scheme matches when its display text contains "high performance"
case-insensitively. -/
def isHighPerfScheme (s : Scheme) : Bool :=
  charsContain "high performance".data (s.name.data.map Char.toLower)

/-- GUID captured by `re.search(r"([0-9a-fA-F\-]{36}).*High performance",
schemes, re.IGNORECASE)`: the first listed scheme whose line mentions
"High performance" (case-insensitive). -/
def findHighPerfGuid (schemes : List Scheme) : Option String :=
  (schemes.find? isHighPerfScheme).map Scheme.guid

/-- Whether `guid` names a scheme known to the OS. -/
def schemeListed (st : SysState) (guid : String) : Bool :=
  st.schemes.any (fun s => s.guid == guid)

/-- Message carried by the `CalledProcessError` a failing
`powercfg /setactive` raises under `check=True`. -/
def setactiveFailMsg (guid : String) : String :=
  "powercfg /setactive " ++ guid ++ " returned non-zero exit status"

/-- Run `subprocess.run(["powercfg", "/setactive", guid], check=True)`:
the invocation is recorded; if the command succeeds the scheme becomes
active, otherwise `check=True` raises `CalledProcessError`. -/
def powercfg_setactive (st : SysState) (env : Env) (guid : String) :
    Except (String × SysState) SysState :=
  let st := { st with activations := st.activations ++ [guid] }
  if env.setActiveOk && schemeListed st guid then
    .ok { st with active := guid }
  else
    .error (setactiveFailMsg guid, st)

/-- Embedding of `GPTBoost._get_active_scheme_guid`: runs
`powercfg /getactivescheme` and extracts the GUID with a regex,
returning `None` when the regex finds no match. -/
def _get_active_scheme_guid (st : SysState) (env : Env) : Option String :=
  if env.activeQueryOk then some st.active else none

/-- Python truthiness of an optional string (`if current:`). -/
def pyTruthy : Option String → Bool
  | none => false
  | some s => s ≠ ""

/-- Message carried by the exception a failing backup-file write
raises. -/
def writeFailMsg (guid : String) : String :=
  "failed to write backup file " ++ guid

/-- File content a failing `write_text` leaves behind. Because mode `w`
truncates on open, only an open-failure preserves the prior content; a
failure mid-write leaves truncated content (an empty file or a strict
prefix of the record, which `json.loads` rejects), and a failure at
close can leave the complete new record. -/
def failedWriteLeftover (env : Env) (prior : FileContent) (guid : String) : FileContent :=
  match env.writeFailMode with
  | .openFail => prior
  | .partialWrite => .malformed
  | .closeFail => .obj [("power_scheme", guid)]

/-- Embedding of the backup-write step of `set_high_performance_mode`:
`if current: self.backup_file.write_text(json.dumps({"power_scheme": current}))`.
A successful write replaces the file content wholesale; a failing write
raises, leaving the file as `failedWriteLeftover` describes. -/
def writeBackupIfCurrent (st : SysState) (env : Env) (current : Option String) :
    Except (String × SysState) SysState :=
  match current with
  | some g =>
      if g ≠ "" then
        (if env.writeOk then
          .ok { st with backup := FileContent.obj [("power_scheme", g)] }
        else
          .error (writeFailMsg g,
            { st with backup := failedWriteLeftover env st.backup g }))
      else
        .ok st
  | none => .ok st

/-- Embedding of `GPTBoost.set_high_performance_mode`: read the active
scheme GUID, persist it if determined, look for a "High performance"
scheme in `powercfg /list` output, activate it if found (warn and stay
otherwise), and return the previously-active GUID. -/
def set_high_performance_mode (st : SysState) (env : Env) :
    Except (String × SysState) (Option String × SysState) :=
  let st0 := logMsg st .info "Setting High Performance power mode..."
  let current := _get_active_scheme_guid st0 env
  match writeBackupIfCurrent st0 env current with
  | .error e => .error e
  | .ok st1 =>
      match findHighPerfGuid (if env.listOk then st1.schemes else []) with
      | none =>
          .ok (current,
            logMsg st1 .warning "High Performance plan not found; staying on current.")
      | some t =>
          match powercfg_setactive st1 env t with
          | .error e => .error e
          | .ok st2 => .ok (current, logMsg st2 .info "Switched to High Performance.")

/-- Embedding of `GPTBoost.undo_optimizations`. The whole Python body is
wrapped in `try/except Exception`, so the embedding is a total function
into `SysState`: every failure is caught and logged, never re-raised. -/
def undo_optimizations (st : SysState) (env : Env) : SysState :=
  let st := logMsg st .info "Reverting GPTboost optimizations..."
  match st.backup with
  | .absent =>
      logMsg st .info "No backup found; leaving current power plan unchanged."
  | .malformed =>
      logMsg st .error "Failed to restore power plan: invalid backup file content"
  | .obj fields =>
      match fields.lookup "power_scheme" with
      | some g =>
          if g ≠ "" then
            match powercfg_setactive st env g with
            | .ok st' => logMsg st' .info ("Power plan restored to " ++ g)
            | .error (e, st') =>
                logMsg st' .error ("Failed to restore power plan: " ++ e)
          else
            logMsg st .info "No backup found; leaving current power plan unchanged."
      | none =>
          logMsg st .info "No backup found; leaving current power plan unchanged."

/-- One step of the default optimization path of `optimize_system`, as
executed after the power-plan switch. `closeProcessesDry` is the
simulated variant of process closing taken under `--dry-run`. -/
inductive Step where
  | closeProcessesReal
  | closeProcessesDry
  | clearBrowserCache
  | flushDnsCache
  | checkWindowsUpdates
  | monitorResources
deriving DecidableEq, Repr

/-- Embedding of `GPTBoost.optimize_system`: first switches the power
plan (unconditionally, also under `--dry-run`), then runs the remaining
steps; `clear_browser_cache`, `flush_dns_cache` and
`check_windows_updates` are skipped when `dry_run` is set, process
closing is simulated, and resource monitoring always runs. The result
carries the returned original plan, the list of steps that executed
after the power-plan switch, and the final state. -/
def optimize_system (st : SysState) (env : Env) (dry_run : Bool) :
    Except (String × SysState) (Option String × List Step × SysState) :=
  let st := logMsg st .info "Starting GPTboost optimization..."
  match set_high_performance_mode st env with
  | .error e => .error e
  | .ok (original_plan, st) =>
      let steps := [if dry_run then Step.closeProcessesDry else Step.closeProcessesReal]
      let steps := steps ++
        (if dry_run then [] else
          [Step.clearBrowserCache, Step.flushDnsCache, Step.checkWindowsUpdates])
      let steps := steps ++ [Step.monitorResources]
      .ok (original_plan, steps,
        logMsg st .info "Optimization complete! Testing system performance...")

/-- Process exit status of `main`. -/
inductive ExitCode where
  | ok
  | err
deriving DecidableEq, Repr

/-- Embedding of the dispatch part of `main`: `--undo` runs
`undo_optimizations`, otherwise `optimize_system` runs; an exception
escaping either is caught at top level, logged as
`Unexpected error: ...`, and the process exits with status 1. -/
def main_run (st : SysState) (env : Env) (undo dry_run : Bool) :
    SysState × ExitCode :=
  if undo then
    (undo_optimizations st env, ExitCode.ok)
  else
    match optimize_system st env dry_run with
    | .ok (_, _, st') => (st', ExitCode.ok)
    | .error (e, st') =>
        (logMsg st' .error ("Unexpected error: " ++ e), ExitCode.err)

/-! Result extractors: whether a run of `set_high_performance_mode`
completed without an exception, its returned value, and the system state
it left behind (for a raising run, the state at the raise). -/

/-- Whether a `set_high_performance_mode` run completed normally. -/
def smodeOk : Except (String × SysState) (Option String × SysState) → Bool
  | .ok _ => true
  | .error _ => false

/-- Value returned by a completed `set_high_performance_mode` run. -/
def smodeRet : Except (String × SysState) (Option String × SysState) → Option String
  | .ok (r, _) => r
  | .error _ => none

/-- System state left by a `set_high_performance_mode` run. -/
def smodeOut : Except (String × SysState) (Option String × SysState) → SysState
  | .ok (_, s) => s
  | .error (_, s) => s

/-- Whether an `optimize_system` run completed without an exception. -/
def osysOk : Except (String × SysState) (Option String × List Step × SysState) → Bool
  | .ok _ => true
  | .error _ => false

/-- Steps that executed after the power-plan switch in an
`optimize_system` run; a raising run executes none of them. -/
def osysSteps : Except (String × SysState) (Option String × List Step × SysState) → List Step
  | .ok (_, steps, _) => steps
  | .error _ => []

/-- System state left by an `optimize_system` run. -/
def osysOut : Except (String × SysState) (Option String × List Step × SysState) → SysState
  | .ok (_, _, s) => s
  | .error (_, s) => s

/-- Steps run by the default (non-dry) optimization path after the
power-plan switch. -/
def fullRealSteps : List Step :=
  [Step.closeProcessesReal, Step.clearBrowserCache, Step.flushDnsCache,
   Step.checkWindowsUpdates, Step.monitorResources]

/-- Whether the backup file content yields a truthy scheme identifier
when read back by `undo_optimizations`. -/
def hasIdentifier : FileContent → Bool
  | .obj fields =>
      match fields.lookup "power_scheme" with
      | some g => g ≠ ""
      | none => false
  | _ => false

/-- The identifier `undo_optimizations` would try to activate, when the
backup file parses and holds a truthy `power_scheme` value. -/
def backupTarget (st : SysState) : Option String :=
  match st.backup with
  | .obj fields =>
      match fields.lookup "power_scheme" with
      | some g => if g ≠ "" then some g else none
      | none => none
  | _ => none

/-- Whether a log contains an error-level line. -/
def logHasError (l : List (LogLevel × String)) : Bool :=
  l.any (fun e => e.1 == LogLevel.error)

/-! Concrete fixtures used by witnesses and counterexamples. -/

/-- GUID of the Balanced scheme from the spec's concrete scenario. -/
def balancedGuid : String := "381b4222-f694-41f0-9685-ff5bb260df2e"

/-- GUID of the stock High performance scheme. -/
def highPerfGuid : String := "8c5e7fda-e8bf-4a96-9a85-a6e23a8c635c"

/-- Fixture: Balanced is active, a High performance scheme exists, no
backup file yet, nothing logged or activated. -/
def stBase : SysState :=
  { active := balancedGuid
    schemes := [⟨balancedGuid, "(Balanced)"⟩, ⟨highPerfGuid, "(High performance)"⟩]
    backup := .absent
    log := []
    activations := [] }

/-- Fixture: no scheme labelled High performance exists. -/
def stNoHP : SysState :=
  { active := balancedGuid
    schemes := [⟨balancedGuid, "(Balanced)"⟩]
    backup := .absent
    log := []
    activations := [] }

/-- Fixture: the backup file names a scheme the OS no longer knows. -/
def stStale : SysState :=
  { active := balancedGuid
    schemes := [⟨balancedGuid, "(Balanced)"⟩]
    backup := .obj [("power_scheme", "00000000-dead-beef-0000-000000000000")]
    log := []
    activations := [] }

/-- Environment in which every external call behaves. -/
def envOk : Env := ⟨true, true, true, true, .openFail⟩

/-- Environment in which the `powercfg /setactive` command fails. -/
def envNoActivate : Env := ⟨true, true, true, false, .openFail⟩

/-- Environment in which writing the backup file fails midway, leaving
the file truncated. -/
def envNoWrite : Env := ⟨true, true, false, true, .partialWrite⟩

theorem powercfg_setactive_eq (st : SysState) (env : Env) (g : String) :
    powercfg_setactive st env g =
      if env.setActiveOk && st.schemes.any (fun s => s.guid == g) then
        .ok { st with active := g, activations := st.activations ++ [g] }
      else
        .error (setactiveFailMsg g,
          { st with activations := st.activations ++ [g] }) := rfl

theorem undo_backup_eq (st : SysState) (env : Env) :
    (undo_optimizations st env).backup = st.backup := by
  unfold undo_optimizations
  cases hb : st.backup with
  | absent => simp [logMsg, hb]
  | malformed => simp [logMsg, hb]
  | obj fields =>
      simp only [logMsg, hb]
      cases hl : fields.lookup "power_scheme" with
      | none => simp [hl]
      | some g =>
          dsimp only
          by_cases hg : g = ""
          · simp [hg]
          · rw [if_pos hg, powercfg_setactive_eq]
            by_cases hc : (env.setActiveOk && st.schemes.any (fun s => s.guid == g)) = true
            · simp [hc]
            · simp [hc]

theorem undo_schemes_eq (st : SysState) (env : Env) :
    (undo_optimizations st env).schemes = st.schemes := by
  unfold undo_optimizations
  cases hb : st.backup with
  | absent => simp [logMsg, hb]
  | malformed => simp [logMsg, hb]
  | obj fields =>
      simp only [logMsg, hb]
      cases hl : fields.lookup "power_scheme" with
      | none => simp [hl]
      | some g =>
          dsimp only
          by_cases hg : g = ""
          · simp [hg]
          · rw [if_pos hg, powercfg_setactive_eq]
            by_cases hc : (env.setActiveOk && st.schemes.any (fun s => s.guid == g)) = true
            · simp [hc]
            · simp [hc]

theorem undo_active_eq (st : SysState) (env : Env) :
    (undo_optimizations st env).active =
      match backupTarget st with
      | some g => if env.setActiveOk && schemeListed st g then g else st.active
      | none => st.active := by
  unfold undo_optimizations backupTarget
  cases hb : st.backup with
  | absent => simp [logMsg, hb]
  | malformed => simp [logMsg, hb]
  | obj fields =>
      simp only [logMsg, hb]
      cases hl : fields.lookup "power_scheme" with
      | none => simp [hl]
      | some g =>
          dsimp only
          by_cases hg : g = ""
          · simp [hg]
          · rw [if_pos hg, powercfg_setactive_eq]
            by_cases hc : (env.setActiveOk && st.schemes.any (fun s => s.guid == g)) = true
            · simp [schemeListed, hc, hg]
            · simp [schemeListed, hc, hg]

theorem undo_activations_eq (st : SysState) (env : Env) :
    (undo_optimizations st env).activations =
      st.activations ++ (backupTarget st).toList := by
  unfold undo_optimizations backupTarget
  cases hb : st.backup with
  | absent => simp [logMsg, hb]
  | malformed => simp [logMsg, hb]
  | obj fields =>
      simp only [logMsg, hb]
      cases hl : fields.lookup "power_scheme" with
      | none => simp [hl]
      | some g =>
          dsimp only
          by_cases hg : g = ""
          · simp [hg]
          · rw [if_pos hg, powercfg_setactive_eq]
            by_cases hc : (env.setActiveOk && st.schemes.any (fun s => s.guid == g)) = true
            · simp [hc, hg]
            · simp [hc, hg]

theorem undo_log_grows (st : SysState) (env : Env) :
    st.log.length < (undo_optimizations st env).log.length := by
  unfold undo_optimizations
  cases hb : st.backup with
  | absent => simp [logMsg, hb]
  | malformed => simp [logMsg, hb]
  | obj fields =>
      simp only [logMsg, hb]
      cases hl : fields.lookup "power_scheme" with
      | none => simp [hl]
      | some g =>
          dsimp only
          by_cases hg : g = ""
          · simp [hg]
          · rw [if_pos hg, powercfg_setactive_eq]
            by_cases hc : (env.setActiveOk && st.schemes.any (fun s => s.guid == g)) = true
            · simp [hc]
            · simp [hc]

theorem undo_error_logged (st : SysState) (env : Env) (g : String)
    (hg : backupTarget st = some g)
    (hc : (env.setActiveOk && schemeListed st g) = false) :
    (LogLevel.error, "Failed to restore power plan: " ++ setactiveFailMsg g)
      ∈ (undo_optimizations st env).log := by
  unfold undo_optimizations
  unfold backupTarget at hg
  cases hb : st.backup with
  | absent => rw [hb] at hg; exact absurd hg (by simp)
  | malformed => rw [hb] at hg; exact absurd hg (by simp)
  | obj fields =>
      rw [hb] at hg
      dsimp only at hg
      simp only [logMsg, hb]
      cases hl : fields.lookup "power_scheme" with
      | none => rw [hl] at hg; exact absurd hg (by simp)
      | some g' =>
          rw [hl] at hg
          dsimp only at hg ⊢
          by_cases hg' : g' = ""
          · rw [if_neg (by simp [hg'])] at hg; exact absurd hg (by simp)
          · rw [if_pos hg'] at hg
            have : g' = g := by simpa using hg
            subst this
            rw [if_pos hg', powercfg_setactive_eq]
            rw [show (env.setActiveOk && st.schemes.any (fun s => s.guid == g')) = false from hc]
            simp

theorem findHighPerfGuid_listed (l : List Scheme) (g : String)
    (h : findHighPerfGuid l = some g) : l.any (fun s => s.guid == g) = true := by
  unfold findHighPerfGuid at h
  cases hf : l.find? isHighPerfScheme with
  | none => rw [hf] at h; simp at h
  | some s =>
      rw [hf] at h
      simp at h
      have hmem := List.mem_of_find?_eq_some hf
      rw [List.any_eq_true]
      refine ⟨s, hmem, ?_⟩
      rw [h]
      simp

theorem smode_good_ok (st : SysState) (env : Env)
    (hq : env.activeQueryOk = true) (hne : st.active ≠ "") (hw : env.writeOk = true)
    (hsa : env.setActiveOk = true) :
    ∃ s, set_high_performance_mode st env = .ok (some st.active, s) ∧
      s.backup = FileContent.obj [("power_scheme", st.active)] ∧
      s.schemes = st.schemes ∧
      s.active = (findHighPerfGuid (if env.listOk then st.schemes else [])).getD st.active ∧
      s.activations = st.activations ++
        (findHighPerfGuid (if env.listOk then st.schemes else [])).toList := by
  unfold set_high_performance_mode writeBackupIfCurrent _get_active_scheme_guid
  simp only [hq, if_true, logMsg]
  rw [if_pos hne, if_pos hw]
  dsimp only
  cases hf : findHighPerfGuid (if env.listOk then st.schemes else []) with
  | none => exact ⟨_, rfl, rfl, rfl, by simp, by simp⟩
  | some t =>
      dsimp only
      rw [powercfg_setactive_eq]
      have hlist : st.schemes.any (fun s => s.guid == t) = true := by
        cases hL : env.listOk with
        | false => rw [hL] at hf; simp [findHighPerfGuid] at hf
        | true =>
            rw [hL] at hf
            simp only [if_true] at hf
            exact findHighPerfGuid_listed _ _ hf
      rw [hsa]
      simp only [hlist, Bool.and_self, if_true]
      exact ⟨_, rfl, rfl, rfl, by simp, by simp⟩

theorem smode_write_fail (st : SysState) (env : Env)
    (hq : env.activeQueryOk = true) (hne : st.active ≠ "") (hw : env.writeOk = false) :
    set_high_performance_mode st env =
      .error (writeFailMsg st.active,
        { active := st.active, schemes := st.schemes,
          backup := failedWriteLeftover env st.backup st.active,
          log := st.log ++ [(LogLevel.info, "Setting High Performance power mode...")],
          activations := st.activations }) := by
  unfold set_high_performance_mode writeBackupIfCurrent _get_active_scheme_guid
  simp only [hq, if_true, logMsg]
  rw [if_pos hne]
  rw [hw]
  simp [logMsg]

theorem backupTarget_of_no_identifier (st : SysState)
    (h : hasIdentifier st.backup = false) : backupTarget st = none := by
  unfold hasIdentifier at h
  unfold backupTarget
  cases hb : st.backup with
  | absent => rfl
  | malformed => rfl
  | obj fields =>
      rw [hb] at h
      dsimp only at h ⊢
      cases hl : fields.lookup "power_scheme" with
      | none => rfl
      | some g =>
          rw [hl] at h
          dsimp only at h
          simp only [h]
          simp at h
          simp [h]

theorem backupTarget_ext (st st' : SysState) (h : st'.backup = st.backup) :
    backupTarget st' = backupTarget st := by
  unfold backupTarget; rw [h]

theorem schemeListed_ext (st st' : SysState) (g : String) (h : st'.schemes = st.schemes) :
    schemeListed st' g = schemeListed st g := by
  unfold schemeListed; rw [h]

theorem smode_nofind_eq (st : SysState) (env : Env)
    (hq : env.activeQueryOk = true) (hne : st.active ≠ "") (hw : env.writeOk = true)
    (hnone : findHighPerfGuid (if env.listOk then st.schemes else []) = none) :
    set_high_performance_mode st env =
      .ok (some st.active,
        { active := st.active, schemes := st.schemes,
          backup := FileContent.obj [("power_scheme", st.active)],
          log := st.log ++ [(LogLevel.info, "Setting High Performance power mode...")]
            ++ [(LogLevel.warning, "High Performance plan not found; staying on current.")],
          activations := st.activations }) := by
  unfold set_high_performance_mode writeBackupIfCurrent _get_active_scheme_guid
  simp only [hq, if_true, logMsg]
  rw [if_pos hne, if_pos hw]
  dsimp only
  rw [hnone]

theorem smode_activation_fail_eq (st : SysState) (env : Env) (t : String)
    (hq : env.activeQueryOk = true) (hne : st.active ≠ "") (hw : env.writeOk = true)
    (hsa : env.setActiveOk = false)
    (hf : findHighPerfGuid (if env.listOk then st.schemes else []) = some t) :
    set_high_performance_mode st env =
      .error (setactiveFailMsg t,
        { active := st.active, schemes := st.schemes,
          backup := FileContent.obj [("power_scheme", st.active)],
          log := st.log ++ [(LogLevel.info, "Setting High Performance power mode...")],
          activations := st.activations ++ [t] }) := by
  unfold set_high_performance_mode writeBackupIfCurrent _get_active_scheme_guid
  simp only [hq, if_true, logMsg]
  rw [if_pos hne, if_pos hw]
  dsimp only
  rw [hf]
  dsimp only
  rw [powercfg_setactive_eq]
  rw [hsa]
  simp

/-- C3: a `restore` (`undo_optimizations`) run in which the persisted
backup file is absent or malformed (not valid JSON, or lacking a
`power_scheme` identifier) issues no scheme activation, leaves the
active scheme unchanged, logs, and does not raise (the embedding of
`undo_optimizations` is a total function, mirroring the `try/except`
that catches every failure). -/
theorem restore_missing_or_malformed_is_noop (st : SysState) (env : Env)
    (h : hasIdentifier st.backup = false) :
    (undo_optimizations st env).active = st.active ∧
    (undo_optimizations st env).activations = st.activations ∧
    st.log.length < (undo_optimizations st env).log.length := by
  have ht := backupTarget_of_no_identifier st h
  refine ⟨?_, ?_, undo_log_grows st env⟩
  · rw [undo_active_eq, ht]
  · rw [undo_activations_eq, ht]; simp

theorem restore_missing_witness :
    (undo_optimizations stBase envOk).active = stBase.active ∧
    (undo_optimizations stBase envOk).activations = stBase.activations ∧
    stBase.log.length < (undo_optimizations stBase envOk).log.length :=
  restore_missing_or_malformed_is_noop stBase envOk (by decide)

/-- C8: a `restore` (`undo_optimizations`) run in which the persisted
record holds an identifier but activating it fails (the `powercfg
/setactive` command exits non-zero, e.g. for an unknown scheme) logs the
failure as an error and leaves the active scheme unchanged; no exception
escapes, since the embedding is a total function mirroring the
`try/except` around the whole body. -/
theorem restore_activation_failure_handled (st : SysState) (env : Env) (g : String)
    (hg : backupTarget st = some g)
    (hc : (env.setActiveOk && schemeListed st g) = false) :
    (undo_optimizations st env).active = st.active ∧
    (LogLevel.error, "Failed to restore power plan: " ++ setactiveFailMsg g)
      ∈ (undo_optimizations st env).log := by
  constructor
  · rw [undo_active_eq, hg]; simp [hc]
  · exact undo_error_logged st env g hg hc

theorem restore_activation_failure_witness :
    (undo_optimizations stStale envOk).active = stStale.active ∧
    (LogLevel.error, "Failed to restore power plan: " ++
        setactiveFailMsg "00000000-dead-beef-0000-000000000000")
      ∈ (undo_optimizations stStale envOk).log :=
  restore_activation_failure_handled stStale envOk
    "00000000-dead-beef-0000-000000000000" (by decide) (by decide)

/-- C10: `restore` (`undo_optimizations`) never modifies or deletes the
persisted backup file, so a second restore under the same conditions
reads the same record, issues the same activation again, and ends with
the same active scheme: restore is idempotent on both the file and the
active scheme. -/
theorem restore_preserves_backup_and_idempotent (st : SysState) (env : Env) :
    (undo_optimizations st env).backup = st.backup ∧
    (undo_optimizations (undo_optimizations st env) env).backup = st.backup ∧
    (undo_optimizations (undo_optimizations st env) env).active
      = (undo_optimizations st env).active ∧
    (undo_optimizations (undo_optimizations st env) env).activations
      = (undo_optimizations st env).activations ++ (backupTarget st).toList := by
  have hb1 := undo_backup_eq st env
  have hbt : backupTarget (undo_optimizations st env) = backupTarget st :=
    backupTarget_ext st (undo_optimizations st env) hb1
  have hsl : ∀ g, schemeListed (undo_optimizations st env) g = schemeListed st g :=
    fun g => schemeListed_ext st (undo_optimizations st env) g (undo_schemes_eq st env)
  refine ⟨hb1, ?_, ?_, ?_⟩
  · rw [undo_backup_eq, hb1]
  · rw [undo_active_eq (undo_optimizations st env) env, hbt]
    cases hT : backupTarget st with
    | none => rfl
    | some g =>
        dsimp only
        rw [hsl g]
        by_cases hc : (env.setActiveOk && schemeListed st g) = true
        · rw [if_pos hc, undo_active_eq st env, hT]
          dsimp only
          rw [if_pos hc]
        · rw [if_neg hc]
  · rw [undo_activations_eq (undo_optimizations st env) env, hbt]

theorem smode_ok_ret (st : SysState) (env : Env) (r : Option String) (s : SysState)
    (hE : set_high_performance_mode st env = .ok (r, s)) :
    r = _get_active_scheme_guid st env := by
  unfold set_high_performance_mode at hE
  dsimp only at hE
  rcases h1 : writeBackupIfCurrent (logMsg st LogLevel.info "Setting High Performance power mode...") env
      (_get_active_scheme_guid (logMsg st LogLevel.info "Setting High Performance power mode...") env)
    with e1 | st1
  · rw [h1] at hE
    exact absurd hE (by simp)
  · rw [h1] at hE
    dsimp only at hE
    rcases h2 : findHighPerfGuid (if env.listOk then st1.schemes else []) with _ | t
    · rw [h2] at hE
      simp only [Except.ok.injEq, Prod.mk.injEq] at hE
      exact hE.1.symm
    · rw [h2] at hE
      dsimp only at hE
      rcases h3 : powercfg_setactive st1 env t with e3 | st2
      · rw [h3] at hE
        exact absurd hE (by simp)
      · rw [h3] at hE
        simp only [Except.ok.injEq, Prod.mk.injEq] at hE
        exact hE.1.symm

/-- C4: whenever `save_and_switch` (`set_high_performance_mode`)
successfully determines the active scheme identifier and the write does
not fail, the persisted file ends up holding exactly the one-record JSON
object mapping `power_scheme` to that identifier, whatever its prior
content was — including in runs that later raise while activating the
high-performance scheme. -/
theorem backup_overwritten_wholesale (st : SysState) (env : Env)
    (hq : env.activeQueryOk = true) (hne : st.active ≠ "") (hw : env.writeOk = true) :
    (smodeOut (set_high_performance_mode st env)).backup
      = FileContent.obj [("power_scheme", st.active)] := by
  unfold set_high_performance_mode writeBackupIfCurrent _get_active_scheme_guid
  simp only [hq, if_true, logMsg]
  rw [if_pos hne, if_pos hw]
  dsimp only
  cases hf : findHighPerfGuid (if env.listOk then st.schemes else []) with
  | none => simp [smodeOut]
  | some t =>
      dsimp only
      rw [powercfg_setactive_eq]
      by_cases hc : (env.setActiveOk && st.schemes.any (fun s => s.guid == t)) = true
      · simp [hc, smodeOut]
      · simp [hc, smodeOut]

theorem backup_overwritten_witness :
    (smodeOut (set_high_performance_mode stBase envOk)).backup
      = FileContent.obj [("power_scheme", stBase.active)] :=
  backup_overwritten_wholesale stBase envOk rfl (by decide) rfl

/-- C5: a `save_and_switch` (`set_high_performance_mode`) run that
completes without an exception returns the identifier that
`powercfg /getactivescheme` reported active when it started, and the
return value is `None` exactly when that query yielded no identifier;
this holds whether or not a high-performance scheme was found. -/
theorem smode_returns_prior_identifier (st : SysState) (env : Env)
    (h : smodeOk (set_high_performance_mode st env) = true) :
    smodeRet (set_high_performance_mode st env) = _get_active_scheme_guid st env ∧
    (smodeRet (set_high_performance_mode st env) = none
      ↔ env.activeQueryOk = false) := by
  rcases hE : set_high_performance_mode st env with p | p
  · rw [hE] at h; simp [smodeOk] at h
  · obtain ⟨r, s⟩ := p
    have hr := smode_ok_ret st env r s hE
    constructor
    · simpa [smodeRet] using hr
    · subst hr
      cases hq : env.activeQueryOk with
      | false => simp [smodeRet, _get_active_scheme_guid, hq]
      | true => simp [smodeRet, _get_active_scheme_guid, hq]

theorem smode_returns_prior_witness :
    smodeRet (set_high_performance_mode stBase envOk)
        = _get_active_scheme_guid stBase envOk ∧
    (smodeRet (set_high_performance_mode stBase envOk) = none
      ↔ envOk.activeQueryOk = false) :=
  smode_returns_prior_identifier stBase envOk (by decide)

/-- C2: a `save_and_switch` (`set_high_performance_mode`) run in which
no scheme labelled "High performance" appears in the OS scheme list
issues no scheme activation, leaves the active scheme unchanged, logs a
warning, and still returns the previously-active identifier. -/
theorem no_high_perf_scheme_warns (st : SysState) (env : Env)
    (hq : env.activeQueryOk = true) (hne : st.active ≠ "") (hw : env.writeOk = true)
    (hnone : findHighPerfGuid st.schemes = none) :
    smodeOk (set_high_performance_mode st env) = true ∧
    smodeRet (set_high_performance_mode st env) = some st.active ∧
    (smodeOut (set_high_performance_mode st env)).active = st.active ∧
    (smodeOut (set_high_performance_mode st env)).activations = st.activations ∧
    (LogLevel.warning, "High Performance plan not found; staying on current.")
      ∈ (smodeOut (set_high_performance_mode st env)).log := by
  have hnone' : findHighPerfGuid (if env.listOk then st.schemes else []) = none := by
    cases hL : env.listOk with
    | false => simp [findHighPerfGuid]
    | true => simpa using hnone
  rw [smode_nofind_eq st env hq hne hw hnone']
  refine ⟨rfl, rfl, rfl, rfl, ?_⟩
  simp [smodeOut]

theorem no_high_perf_scheme_witness :
    smodeOk (set_high_performance_mode stNoHP envOk) = true ∧
    smodeRet (set_high_performance_mode stNoHP envOk) = some stNoHP.active ∧
    (smodeOut (set_high_performance_mode stNoHP envOk)).active = stNoHP.active ∧
    (smodeOut (set_high_performance_mode stNoHP envOk)).activations
      = stNoHP.activations ∧
    (LogLevel.warning, "High Performance plan not found; staying on current.")
      ∈ (smodeOut (set_high_performance_mode stNoHP envOk)).log :=
  no_high_perf_scheme_warns stNoHP envOk rfl (by decide) rfl (by decide)

/-- C1: starting from any active scheme identifier, running
`save_and_switch` (`set_high_performance_mode`) and then `restore`
(`undo_optimizations`), with no external change to the scheme list or
the persisted file in between and with the external calls behaving,
brings the active scheme back to the original identifier. -/
theorem power_round_trip (st : SysState) (env env2 : Env)
    (hq : env.activeQueryOk = true) (hne : st.active ≠ "") (hw : env.writeOk = true)
    (hsa : env.setActiveOk = true) (hsa2 : env2.setActiveOk = true)
    (hmem : schemeListed st st.active = true) :
    smodeOk (set_high_performance_mode st env) = true ∧
    (undo_optimizations (smodeOut (set_high_performance_mode st env)) env2).active
      = st.active := by
  obtain ⟨s, hEq, hb, hs, ha, hact⟩ := smode_good_ok st env hq hne hw hsa
  rw [hEq]
  refine ⟨rfl, ?_⟩
  have hbt : backupTarget s = some st.active := by
    unfold backupTarget
    rw [hb]
    simp [List.lookup, hne]
  show (undo_optimizations s env2).active = st.active
  rw [undo_active_eq, hbt]
  dsimp only
  rw [schemeListed_ext st s st.active hs]
  simp [hsa2, hmem]

theorem power_round_trip_witness :
    smodeOk (set_high_performance_mode stBase envOk) = true ∧
    (undo_optimizations (smodeOut (set_high_performance_mode stBase envOk)) envOk).active
      = stBase.active :=
  power_round_trip stBase envOk envOk rfl (by decide) rfl rfl rfl (by decide)

/-- C9: under `--dry-run`, `optimize_system` still performs the
power-plan switch for real — the persisted backup file is overwritten
and the high-performance scheme, when one is found, is activated — while
process closing is only simulated and cache clearing, DNS flush and the
Windows-update check are skipped (resource monitoring still runs). -/
theorem dry_run_still_switches (st : SysState) (env : Env)
    (hq : env.activeQueryOk = true) (hne : st.active ≠ "") (hw : env.writeOk = true)
    (hsa : env.setActiveOk = true) :
    osysOk (optimize_system st env true) = true ∧
    osysSteps (optimize_system st env true)
      = [Step.closeProcessesDry, Step.monitorResources] ∧
    (osysOut (optimize_system st env true)).backup
      = FileContent.obj [("power_scheme", st.active)] ∧
    (osysOut (optimize_system st env true)).active
      = (findHighPerfGuid (if env.listOk then st.schemes else [])).getD st.active ∧
    (osysOut (optimize_system st env true)).activations
      = st.activations
        ++ (findHighPerfGuid (if env.listOk then st.schemes else [])).toList := by
  obtain ⟨s, hEq, hb, hs, ha, hact⟩ :=
    smode_good_ok (logMsg st LogLevel.info "Starting GPTboost optimization...") env
      hq hne hw hsa
  dsimp only [logMsg] at hb hs ha hact
  unfold optimize_system
  dsimp only
  rw [hEq]
  dsimp only
  refine ⟨rfl, rfl, ?_, ?_, ?_⟩
  · dsimp only [osysOut, logMsg]
    exact hb
  · dsimp only [osysOut, logMsg]
    exact ha
  · dsimp only [osysOut, logMsg]
    exact hact

theorem dry_run_still_switches_witness :
    osysOk (optimize_system stBase envOk true) = true ∧
    osysSteps (optimize_system stBase envOk true)
      = [Step.closeProcessesDry, Step.monitorResources] ∧
    (osysOut (optimize_system stBase envOk true)).backup
      = FileContent.obj [("power_scheme", stBase.active)] ∧
    (osysOut (optimize_system stBase envOk true)).active
      = (findHighPerfGuid (if envOk.listOk then stBase.schemes else [])).getD stBase.active ∧
    (osysOut (optimize_system stBase envOk true)).activations
      = stBase.activations
        ++ (findHighPerfGuid (if envOk.listOk then stBase.schemes else [])).toList :=
  dry_run_still_switches stBase envOk rfl (by decide) rfl rfl

/-- C6 counterexample: with a High performance scheme present in the
scheme list but the `powercfg /setactive` command failing, the
optimization run aborts — none of the remaining steps execute, no
warning is logged, and the process exits with a non-zero status —
contradicting the claim that an activation failure is logged as a
warning and the rest of the run still executes. -/
theorem activation_failure_aborts_run_cex :
    findHighPerfGuid stBase.schemes = some highPerfGuid ∧
    osysOk (optimize_system stBase envNoActivate false) = false ∧
    osysSteps (optimize_system stBase envNoActivate false) = [] ∧
    (osysOut (optimize_system stBase envNoActivate false)).log.all
      (fun e => !(e.1 == LogLevel.warning)) = true ∧
    (main_run stBase envNoActivate false false).2 = ExitCode.err := by
  decide

/-- C6 (amended): a failure to enumerate a high-performance scheme (no
match in the `powercfg /list` output) is logged as a warning and the
remaining optimization steps still execute; but a failure of the
activation command itself raises, aborting the run before any remaining
step — `main` catches it, logs it as an error, and exits non-zero. -/
theorem enum_vs_activation_failure (st : SysState) (env : Env)
    (hq : env.activeQueryOk = true) (hne : st.active ≠ "") (hw : env.writeOk = true) :
    (findHighPerfGuid (if env.listOk then st.schemes else []) = none →
       osysOk (optimize_system st env false) = true ∧
       osysSteps (optimize_system st env false) = fullRealSteps ∧
       (LogLevel.warning, "High Performance plan not found; staying on current.")
         ∈ (osysOut (optimize_system st env false)).log) ∧
    (env.setActiveOk = false →
       (findHighPerfGuid (if env.listOk then st.schemes else [])).isSome = true →
       osysOk (optimize_system st env false) = false ∧
       osysSteps (optimize_system st env false) = [] ∧
       (main_run st env false false).2 = ExitCode.err ∧
       logHasError (main_run st env false false).1.log = true) := by
  constructor
  · intro hnone
    have hEq := smode_nofind_eq (logMsg st LogLevel.info "Starting GPTboost optimization...")
      env hq hne hw hnone
    unfold optimize_system
    dsimp only
    rw [hEq]
    dsimp only
    refine ⟨rfl, rfl, ?_⟩
    simp [osysOut, logMsg]
  · intro hsa hsome
    obtain ⟨t, hf⟩ := Option.isSome_iff_exists.mp hsome
    have hEq := smode_activation_fail_eq
      (logMsg st LogLevel.info "Starting GPTboost optimization...") env t hq hne hw hsa hf
    unfold main_run optimize_system
    dsimp only
    rw [hEq]
    dsimp only
    refine ⟨rfl, rfl, rfl, ?_⟩
    simp [logHasError, logMsg]
    exact Or.inr (Or.inr rfl)

theorem enum_vs_activation_failure_witness :
    osysOk (optimize_system stBase envNoActivate false) = false ∧
    osysSteps (optimize_system stBase envNoActivate false) = [] ∧
    (main_run stBase envNoActivate false false).2 = ExitCode.err ∧
    logHasError (main_run stBase envNoActivate false false).1.log = true :=
  (enum_vs_activation_failure stBase envNoActivate rfl (by decide) rfl).2 rfl (by decide)

/-- C7 counterexample: when writing the persisted backup record fails,
the optimization run aborts — none of the remaining steps execute and
the process exits with a non-zero status — contradicting the claim that
the run proceeds and the remaining steps still execute. -/
theorem write_failure_aborts_run_cex :
    osysOk (optimize_system stBase envNoWrite false) = false ∧
    osysSteps (optimize_system stBase envNoWrite false) = [] ∧
    (osysOut (optimize_system stBase envNoWrite false)).backup
      = FileContent.malformed ∧
    (main_run stBase envNoWrite false false).2 = ExitCode.err := by
  decide

/-- C7 (amended): a failure to write the persisted backup record raises
out of `set_high_performance_mode`; the remaining optimization steps do
not execute, and `main` catches the exception, logs it as
`Unexpected error: ...`, and exits with a non-zero status. The backup
file is left as the truncate-then-write failure left it: the prior
content only when the open itself failed, truncated invalid content
when the write failed midway, or the complete new record when only the
close failed. -/
theorem write_failure_propagates (st : SysState) (env : Env)
    (hq : env.activeQueryOk = true) (hne : st.active ≠ "")
    (hw : env.writeOk = false) :
    osysOk (optimize_system st env false) = false ∧
    osysSteps (optimize_system st env false) = [] ∧
    (osysOut (optimize_system st env false)).backup
      = failedWriteLeftover env st.backup st.active ∧
    (main_run st env false false).2 = ExitCode.err ∧
    (LogLevel.error, "Unexpected error: " ++ writeFailMsg st.active)
      ∈ (main_run st env false false).1.log := by
  have hEq := smode_write_fail (logMsg st LogLevel.info "Starting GPTboost optimization...")
    env hq hne hw
  unfold main_run optimize_system
  dsimp only
  rw [hEq]
  dsimp only
  refine ⟨rfl, rfl, rfl, rfl, ?_⟩
  simp [logMsg]

theorem write_failure_propagates_witness :
    osysOk (optimize_system stBase envNoWrite false) = false ∧
    osysSteps (optimize_system stBase envNoWrite false) = [] ∧
    (osysOut (optimize_system stBase envNoWrite false)).backup
      = failedWriteLeftover envNoWrite stBase.backup stBase.active ∧
    (main_run stBase envNoWrite false false).2 = ExitCode.err ∧
    (LogLevel.error, "Unexpected error: " ++ writeFailMsg stBase.active)
      ∈ (main_run stBase envNoWrite false false).1.log :=
  write_failure_propagates stBase envNoWrite rfl (by decide) rfl
